import Mathlib

/-!
Verification development for `backend/src/python/garmin/garmin_service.py`.

The script is a single-shot CLI wrapper over the external `garminconnect`
client library: it authenticates, calls one client method, re-shapes the
response into a flat JSON record and prints exactly one JSON value on
standard output (all diagnostic prints in the source go to standard error
and are not part of this model).

Modelling choices:
- JSON-like dynamic values are the inductive `JVal`; Python numbers are
  modelled as integers (`JVal.int`), Python `None` as `JVal.null`.
- The external client is an `Oracle`: for each client method it records
  whether the call returns a value or raises, and which exception it
  raises.  Credentials are absorbed into the oracle, since only the
  external library inspects them.
- Python `dict.get`, truthiness, `==` against an int literal, and `//`
  (floor division, which raises `TypeError` on non-numeric operands) are
  modelled by `pyGetD`, `truthy`, `pyEqInt` and `pyFloorDiv`.  Exception
  message texts for `TypeError` / `ValueError` / `UnboundLocalError` are
  abstracted to fixed strings; no property depends on their exact wording.
- `int(minutes_active * 0.4)` is modelled by `pyInt04 n = (2*n).fdiv 5`:
  for the positive magnitudes reaching that expression the floating-point
  computation agrees with exact truncation, and no claim depends on the
  value of this estimate.
-/

/-- JSON-like dynamic values manipulated by the script. -/
inductive JVal where
  | null
  | bool (b : Bool)
  | int (n : Int)
  | str (s : String)
  | arr (elems : List JVal)
  | obj (kvs : List (String × JVal))

/-- Python truthiness of a value (`if stats_data:`). -/
def truthy : JVal → Bool
  | JVal.null => false
  | JVal.bool b => b
  | JVal.int n => n != 0
  | JVal.str s => !s.isEmpty
  | JVal.arr xs => !xs.isEmpty
  | JVal.obj kvs => !kvs.isEmpty

/-- Python `d.get(k, dv)` on a dictionary. -/
def pyGetD (d : List (String × JVal)) (k : String) (dv : JVal) : JVal :=
  match d.lookup k with
  | some v => v
  | none => dv

/-- The two-level fallback `d.get(k1, d.get(k2, 0))` used throughout the file. -/
def pyGet2 (d : List (String × JVal)) (k1 k2 : String) : JVal :=
  pyGetD d k1 (pyGetD d k2 (JVal.int 0))

/-- Python `k in d` on a dictionary. -/
def hasKeyPairs (d : List (String × JVal)) (k : String) : Bool :=
  d.any (fun p => p.1 == k)

/-- Field access on a JSON value: `some` only for objects holding the key. -/
def jlookup (v : JVal) (k : String) : Option JVal :=
  match v with
  | JVal.obj kvs => kvs.lookup k
  | _ => none

/-- Python `k in v` where `v` is a JSON object (`"error" in summary`). -/
def hasKeyB (v : JVal) (k : String) : Bool :=
  match v with
  | JVal.obj kvs => hasKeyPairs kvs k
  | _ => false

/-- Whether a JSON value is an object (a key-value mapping). -/
def isObjB : JVal → Bool
  | JVal.obj _ => true
  | _ => false

/-- Number of fields of a JSON object (0 for non-objects). -/
def jvalObjLen : JVal → Nat
  | JVal.obj kvs => kvs.length
  | _ => 0

/-- The `{"error": m}` object. -/
def errObj (m : String) : JVal := JVal.obj [("error", JVal.str m)]

/-- Python `v == n` for an int literal `n` (True/False compare as 1/0). -/
def pyEqInt (v : JVal) (n : Int) : Bool :=
  match v with
  | JVal.int m => m == n
  | JVal.bool b => (if b then (1 : Int) else 0) == n
  | _ => false

/-- Python `v // k`: floor division, `TypeError` on non-numeric operands. -/
def pyFloorDiv (v : JVal) (k : Int) : Except String Int :=
  match v with
  | JVal.int n => Except.ok (Int.fdiv n k)
  | JVal.bool b => Except.ok (Int.fdiv (if b then 1 else 0) k)
  | _ => Except.error "unsupported operand type for floor division"

/-- Python `int(n * 0.4)` for the int `n`; exact truncation of `2n/5`. -/
def pyInt04 (n : Int) : Int := Int.fdiv (2 * n) 5

/-- Python `str(v)` (container reprs abstracted; unused by any property). -/
def pyStr : JVal → String
  | JVal.str s => s
  | JVal.int n => toString n
  | JVal.bool b => if b then "True" else "False"
  | JVal.null => "None"
  | JVal.arr _ => "<list>"
  | JVal.obj _ => "<dict>"

/-- Exceptions the `garminconnect` client can raise. -/
inductive GarminExc where
  | tooManyRequests
  | connectionError (msg : String)
  | authenticationError (msg : String)
  | other (msg : String)
deriving DecidableEq

/-- Python `str(e)` for a client exception. -/
def excStr : GarminExc → String
  | GarminExc.tooManyRequests => "Too many requests"
  | GarminExc.connectionError m => m
  | GarminExc.authenticationError m => m
  | GarminExc.other m => m

/-- Outcome of one external client call: a returned value or a raised exception. -/
inductive CallResult where
  | ok (v : JVal)
  | exc (e : GarminExc)

/-- Behaviour of the external `garminconnect` client for one process run. -/
structure Oracle where
  login : Option GarminExc
  getStats : String → CallResult
  getUserProfile : CallResult
  getActivitiesByDate : String → String → CallResult
  getActivityDetails : Option String → CallResult

/-- Line 20: the fixed rate-limit message. -/
def RATE_LIMIT_ERROR : String := "Garmin API rate limit reached. Please try again later."

/-- Result of `get_client`: an authenticated handle or an error dictionary. -/
inductive ClientOrError where
  | client
  | errorDict (kvs : List (String × JVal))

/-- Lines 22-39: `get_client` — login and map each exception class to its dict. -/
def get_client (o : Oracle) : ClientOrError :=
  match o.login with
  | none => ClientOrError.client
  | some GarminExc.tooManyRequests =>
      ClientOrError.errorDict [("error", JVal.str RATE_LIMIT_ERROR), ("status_code", JVal.int 429)]
  | some (GarminExc.connectionError m) => ClientOrError.errorDict [("error", JVal.str m)]
  | some (GarminExc.authenticationError m) => ClientOrError.errorDict [("error", JVal.str m)]
  | some (GarminExc.other m) =>
      ClientOrError.errorDict [("error", JVal.str ("Unknown error: " ++ m))]

/-- The `client["error"]` access on an error dictionary. -/
def errField (kvs : List (String × JVal)) : JVal :=
  (kvs.lookup "error").getD JVal.null

/-- Lines 41-69: `handle_garmin_request` — return the result, map a rate-limit
exception to the fixed 429 object, and any other exception to `None`. -/
def handle_garmin_request : CallResult → JVal
  | CallResult.ok v => v
  | CallResult.exc GarminExc.tooManyRequests =>
      JVal.obj [("error", JVal.str RATE_LIMIT_ERROR), ("status_code", JVal.int 429)]
  | CallResult.exc _ => JVal.null

/-- A Gregorian calendar date. -/
structure Date where
  y : Nat
  m : Nat
  d : Nat
deriving DecidableEq

/-- Gregorian leap year. -/
def isLeap (y : Nat) : Bool := y % 4 == 0 && (y % 100 != 0 || y % 400 == 0)

/-- Days in a month of a given year. -/
def daysInMonth (y m : Nat) : Nat :=
  if m == 2 then (if isLeap y then 29 else 28)
  else if m == 4 || m == 6 || m == 9 || m == 11 then 30
  else 31

/-- Digits of a numeric character list to a natural number. -/
def digitsToNat (cs : List Char) : Nat :=
  cs.foldl (fun a c => a * 10 + (c.toNat - 48)) 0

/-- Split a character list on a separator character. -/
def splitOnChar (sep : Char) : List Char → List (List Char)
  | [] => [[]]
  | c :: rest =>
    let r := splitOnChar sep rest
    if c == sep then [] :: r
    else
      match r with
      | [] => [[c]]
      | g :: gs => (c :: g) :: gs

/-- Model of `datetime.strptime(s, "%Y-%m-%d").date()`: four-digit year,
one- or two-digit month and day, validated against the calendar; `none`
models the `ValueError` raised on any mismatch. -/
def parseYMD (s : String) : Option Date :=
  match splitOnChar '-' s.data with
  | [ys, ms, ds] =>
    if ys.length == 4 && ys.all Char.isDigit
        && (ms.length == 1 || ms.length == 2) && ms.all Char.isDigit
        && (ds.length == 1 || ds.length == 2) && ds.all Char.isDigit then
      let y := digitsToNat ys
      let m := digitsToNat ms
      let d := digitsToNat ds
      if 1 ≤ y && 1 ≤ m && m ≤ 12 && 1 ≤ d && d ≤ daysInMonth y m then
        some ⟨y, m, d⟩
      else none
    else none
  | _ => none

/-- Zero-padded decimal rendering of width `w`. -/
def padNum (w n : Nat) : String :=
  let s := toString n
  String.mk (List.replicate (w - s.length) '0') ++ s

/-- Model of `date.strftime("%Y-%m-%d")` / `date.isoformat()`. -/
def formatDate (dt : Date) : String :=
  padNum 4 dt.y ++ "-" ++ padNum 2 dt.m ++ "-" ++ padNum 2 dt.d

/-- Model of `date + timedelta(days=1)`. -/
def nextDate (dt : Date) : Date :=
  if dt.d < daysInMonth dt.y dt.m then ⟨dt.y, dt.m, dt.d + 1⟩
  else if dt.m < 12 then ⟨dt.y, dt.m + 1, 1⟩
  else ⟨dt.y + 1, 1, 1⟩

/-- Model of `current_date <= end` on dates. -/
def dateLe (a b : Date) : Bool :=
  a.y < b.y || (a.y == b.y && (a.m < b.m || (a.m == b.m && a.d ≤ b.d)))

/-- Days in all years strictly before year `y` (proleptic Gregorian). -/
def daysBeforeYear (y : Nat) : Nat :=
  365 * (y - 1) + (y - 1) / 4 + (y - 1) / 400 - (y - 1) / 100

/-- Days in all months of year `y` strictly before month `m`. -/
def daysBeforeMonth (y m : Nat) : Nat :=
  ((List.range (m - 1)).map (fun i => daysInMonth y (i + 1))).sum

/-- Rata-die style day number, used only to bound the date-range loop. -/
def toDayNumber (dt : Date) : Nat :=
  daysBeforeYear dt.y + daysBeforeMonth dt.y dt.m + dt.d

/-- Exception message for `strptime(None, ...)` (`TypeError`). -/
def strptimeNoneMsg : String := "strptime argument 1 must be str, not None"

/-- Exception message for `strptime` on a malformed string (`ValueError`). -/
def strptimeValueErrorMsg (s : String) : String :=
  "time data " ++ s ++ " does not match format %Y-%m-%d"

/-- Exception message for line 284, where `minutes_lightly_active` is read
without having been assigned on non-dict, non-dict-headed-list responses. -/
def unboundLocalMsg : String :=
  "local variable minutes_lightly_active referenced before assignment"

/-- The four activity-minute variables of `get_daily_summary`. -/
structure MinuteVals where
  minutes_sedentary : JVal
  minutes_lightly_active : JVal
  minutes_moderately_active : JVal
  minutes_highly_active : JVal

/-- All variables assembled into the summary dictionary (lines 292-312). -/
structure SummaryFields where
  total_steps : JVal
  total_distance_meters : JVal
  total_calories : JVal
  active_calories : JVal
  bmr_calories : JVal
  avg_stress_level : JVal
  floor_climbed : JVal
  minutes_sedentary : JVal
  minutes_lightly_active : JVal
  minutes_moderately_active : JVal
  minutes_highly_active : JVal
  min_heart_rate : JVal
  max_heart_rate : JVal
  resting_heart_rate : JVal

/-- Line 210: the direct sedentary-minute resolution. -/
def directSedentary (d : List (String × JVal)) : JVal :=
  pyGetD d "minutes_sedentary" (pyGetD d "minutesSedentary" (JVal.int 0))

/-- Lines 210-213: sedentary minutes, converting `sedentarySeconds` when the
direct resolution is 0 and that key is present. -/
def sedentaryMinutes (d : List (String × JVal)) : Except String JVal :=
  let ms := directSedentary d
  if pyEqInt ms 0 && hasKeyPairs d "sedentarySeconds" then
    match pyFloorDiv (pyGetD d "sedentarySeconds" (JVal.int 0)) 60 with
    | Except.ok q => Except.ok (JVal.int q)
    | Except.error e => Except.error e
  else Except.ok ms

/-- Line 216: the direct lightly-active-minute resolution. -/
def directLightly (d : List (String × JVal)) : JVal :=
  pyGetD d "minutes_lightly_active" (pyGetD d "minutesLightlyActive" (JVal.int 0))

/-- Line 217: the direct moderately-active-minute resolution. -/
def directModerately (d : List (String × JVal)) : JVal :=
  pyGetD d "minutes_moderately_active" (pyGetD d "minutesModeratelyActive" (JVal.int 0))

/-- Line 218: the direct highly-active-minute resolution. -/
def directHighly (d : List (String × JVal)) : JVal :=
  pyGetD d "minutes_highly_active" (pyGetD d "minutesHighlyActive" (JVal.int 0))

/-- Lines 215-230: the active-minute extraction after sedentary minutes are
settled, including the estimated split from `activeSeconds` when all three
direct resolutions are 0. -/
def minuteRest (d : List (String × JVal)) (ms : JVal) : Except String MinuteVals :=
  if pyEqInt (directLightly d) 0 && pyEqInt (directModerately d) 0
      && pyEqInt (directHighly d) 0 then
    match pyFloorDiv (pyGetD d "activeSeconds" (JVal.int 0)) 60 with
    | Except.error e => Except.error e
    | Except.ok n =>
      if 0 < n then
        match pyFloorDiv (pyGetD d "highlyActiveSeconds" (JVal.int 0)) 60 with
        | Except.error e => Except.error e
        | Except.ok h =>
            Except.ok ⟨ms, JVal.int (n - h - pyInt04 n), JVal.int (pyInt04 n), JVal.int h⟩
      else Except.ok ⟨ms, directLightly d, directModerately d, directHighly d⟩
  else Except.ok ⟨ms, directLightly d, directModerately d, directHighly d⟩

/-- Lines 209-230: the activity-minute extraction. -/
def minuteFields (d : List (String × JVal)) : Except String MinuteVals :=
  match sedentaryMinutes d with
  | Except.error e => Except.error e
  | Except.ok ms => minuteRest d ms

/-- Lines 197-235: the simple fallback resolutions combined with the minute
values (the identical list-branch code at lines 241-277 reuses this). -/
def fieldsOf (d : List (String × JVal)) (mv : MinuteVals) : SummaryFields where
  total_steps := pyGet2 d "totalSteps" "total_steps"
  total_distance_meters := pyGet2 d "totalDistanceMeters" "total_distance_meters"
  total_calories := pyGet2 d "totalKilocalories" "total_calories"
  active_calories := pyGet2 d "activeKilocalories" "active_calories"
  bmr_calories := pyGet2 d "bmrKilocalories" "bmr_calories"
  avg_stress_level := pyGet2 d "averageStressLevel" "avg_stress_level"
  floor_climbed := pyGet2 d "floorsAscended" "floor_climbed"
  minutes_sedentary := mv.minutes_sedentary
  minutes_lightly_active := mv.minutes_lightly_active
  minutes_moderately_active := mv.minutes_moderately_active
  minutes_highly_active := mv.minutes_highly_active
  min_heart_rate := pyGet2 d "minHeartRate" "min_heart_rate"
  max_heart_rate := pyGet2 d "maxHeartRate" "max_heart_rate"
  resting_heart_rate := pyGet2 d "restingHeartRate" "resting_heart_rate"

/-- Whole-dictionary extraction; errors are the propagated `TypeError`s. -/
def extractDict (d : List (String × JVal)) : Except String SummaryFields :=
  match minuteFields d with
  | Except.error e => Except.error e
  | Except.ok mv => Except.ok (fieldsOf d mv)

/-- The key-value pairs of the summary dictionary, in source order
(lines 292-312); note line 301 stores `min_heart_rate` under
`avg_heart_rate`, and no key carries the minimum heart rate. -/
def summaryPairs (date : String) (f : SummaryFields) : List (String × JVal) :=
  [("id", JVal.int 0),
   ("user_id", JVal.int 0),
   ("date", JVal.str date),
   ("total_steps", f.total_steps),
   ("total_distance_meters", f.total_distance_meters),
   ("total_calories", f.total_calories),
   ("active_calories", f.active_calories),
   ("bmr_calories", f.bmr_calories),
   ("avg_heart_rate", f.min_heart_rate),
   ("max_heart_rate", f.max_heart_rate),
   ("resting_heart_rate", f.resting_heart_rate),
   ("avg_stress_level", f.avg_stress_level),
   ("floor_climbed", f.floor_climbed),
   ("minutes_sedentary", f.minutes_sedentary),
   ("minutes_lightly_active", f.minutes_lightly_active),
   ("minutes_moderately_active", f.minutes_moderately_active),
   ("minutes_highly_active", f.minutes_highly_active),
   ("created_at", JVal.str ""),
   ("updated_at", JVal.str "")]

/-- The summary dictionary as a JSON object. -/
def summaryToJVal (date : String) (f : SummaryFields) : JVal :=
  JVal.obj (summaryPairs date f)

/-- Line 288: the all-zero guard on steps, distance and calories. -/
def allZeroB (f : SummaryFields) : Bool :=
  pyEqInt f.total_steps 0 && pyEqInt f.total_distance_meters 0 && pyEqInt f.total_calories 0

/-- Lines 287-317: return the summary object, or the no-data error when the
all-zero guard fires, or the caught exception message. -/
def buildSummary (date : String) (r : Except String SummaryFields) : JVal :=
  match r with
  | Except.error m => errObj m
  | Except.ok f =>
      if allZeroB f then errObj ("No fitness data available for " ++ date)
      else summaryToJVal date f

/-- Lines 161-317 of `get_daily_summary`, after the stats fetch: the
truthiness check, the 429 pass-through, dictionary or list-head extraction,
and the unbound-variable error on any other truthy shape. -/
def get_daily_summary_core (date : String) (stats : JVal) : JVal :=
  if truthy stats then
    match stats with
    | JVal.obj d =>
        if pyEqInt (pyGetD d "status_code" JVal.null) 429 then JVal.obj d
        else buildSummary date (extractDict d)
    | JVal.arr items =>
        match items with
        | JVal.obj d :: _ => buildSummary date (extractDict d)
        | _ => errObj unboundLocalMsg
    | _ => errObj unboundLocalMsg
  else errObj ("No fitness data available for " ++ date)

/-- Lines 149-321: `get_daily_summary`.  A `none` date models the
`strptime(None, ...)` `TypeError` reaching the outer handler. -/
def get_daily_summary (o : Oracle) (date : Option String) : JVal :=
  match get_client o with
  | ClientOrError.errorDict kvs => JVal.obj kvs
  | ClientOrError.client =>
    match date with
    | none => errObj strptimeNoneMsg
    | some ds =>
      match parseYMD ds with
      | none => errObj ("Invalid date format: " ++ ds ++ ". Use YYYY-MM-DD.")
      | some _ => get_daily_summary_core ds (handle_garmin_request (o.getStats ds))

/-- Lines 335-343: the date-range loop of `get_daily_summaries`, appending
only per-day results without an `error` key.  `fuel` bounds the iteration
count; callers pass one more than the day-number difference. -/
def collectSummaries (o : Oracle) : Nat → Date → Date → List JVal
  | 0, _, _ => []
  | Nat.succ n, cur, fin =>
    if dateLe cur fin then
      let s := get_daily_summary o (some (formatDate cur))
      if hasKeyB s "error" then collectSummaries o n (nextDate cur) fin
      else s :: collectSummaries o n (nextDate cur) fin
    else []

/-- Lines 323-352: `get_daily_summaries`. -/
def get_daily_summaries (o : Oracle) (start_date end_date : Option String) : JVal :=
  match get_client o with
  | ClientOrError.errorDict kvs => JVal.obj [("error", errField kvs)]
  | ClientOrError.client =>
    match start_date with
    | none => errObj strptimeNoneMsg
    | some s =>
      match parseYMD s with
      | none => errObj (strptimeValueErrorMsg s)
      | some st =>
        match (match end_date with
               | some es =>
                 if es = "" then Except.ok st
                 else (match parseYMD es with
                       | some en => Except.ok en
                       | none => Except.error (strptimeValueErrorMsg es))
               | none => Except.ok st : Except String Date) with
        | Except.error m => errObj m
        | Except.ok en =>
            JVal.arr (collectSummaries o (toDayNumber en + 1 - toDayNumber st) st en)

/-- Lines 71-79: `authenticate`. -/
def authenticate (o : Oracle) : JVal :=
  match get_client o with
  | ClientOrError.errorDict kvs =>
      JVal.obj [("success", JVal.bool false), ("error", errField kvs)]
  | ClientOrError.client =>
      JVal.obj [("success", JVal.bool true), ("message", JVal.str "Authentication successful")]

/-- Lines 81-91: `get_profile`; a successful call relays the client value. -/
def get_profile (o : Oracle) : JVal :=
  match get_client o with
  | ClientOrError.errorDict kvs => JVal.obj [("error", errField kvs)]
  | ClientOrError.client =>
    match o.getUserProfile with
    | CallResult.ok v => v
    | CallResult.exc e => errObj (excStr e)

/-- Exception message for `.get` on a non-dictionary (`AttributeError`). -/
def attrErrorMsg : String := "object has no attribute get"

/-- Lines 110-122: transformation of one activity entry. -/
def transformActivity (a : JVal) : Except String JVal :=
  match a with
  | JVal.obj d =>
    match pyGetD d "activityType" (JVal.obj []) with
    | JVal.obj t =>
      match pyGetD t "typeKey" (JVal.str "") with
      | JVal.str tk =>
        Except.ok (JVal.obj
          [("activityId", JVal.str (pyStr (pyGetD d "activityId" (JVal.str "")))),
           ("activityName", pyGetD d "activityName" (JVal.str "")),
           ("activityType", JVal.str tk.toLower),
           ("startTime", pyGetD d "startTimeLocal" (JVal.str "")),
           ("durationSeconds", pyGetD d "duration" (JVal.int 0)),
           ("distanceMeters", pyGetD d "distance" (JVal.int 0)),
           ("calories", pyGetD d "calories" (JVal.int 0)),
           ("avgHeartRate", pyGetD d "averageHR" (JVal.int 0)),
           ("maxHeartRate", pyGetD d "maxHR" (JVal.int 0)),
           ("steps", pyGetD d "steps" (JVal.int 0)),
           ("elevationGain", pyGetD d "elevationGain" (JVal.int 0))])
      | _ => Except.error attrErrorMsg
    | _ => Except.error attrErrorMsg
  | _ => Except.error attrErrorMsg

/-- Lines 108-123: the transformation loop, stopping at the first exception. -/
def transformAll : List JVal → Except String (List JVal)
  | [] => Except.ok []
  | a :: rest =>
    match transformActivity a with
    | Except.error m => Except.error m
    | Except.ok t =>
      match transformAll rest with
      | Except.error m => Except.error m
      | Except.ok ts => Except.ok (t :: ts)

/-- Exception message for iterating a non-list response (`TypeError`). -/
def iterErrorMsg : String := "object is not iterable"

/-- Lines 105-125: fetch activities for the range and transform them. -/
def activitiesCall (o : Oracle) (st en : Date) : JVal :=
  match o.getActivitiesByDate (formatDate st) (formatDate en) with
  | CallResult.exc e => errObj (excStr e)
  | CallResult.ok (JVal.arr acts) =>
    match transformAll acts with
    | Except.ok ts => JVal.arr ts
    | Except.error m => errObj m
  | CallResult.ok _ => errObj iterErrorMsg

/-- Lines 93-127: `get_activities`; a successful result is a JSON array. -/
def get_activities (o : Oracle) (start_date end_date : Option String) : JVal :=
  match get_client o with
  | ClientOrError.errorDict kvs => JVal.obj [("error", errField kvs)]
  | ClientOrError.client =>
    match start_date with
    | none => errObj strptimeNoneMsg
    | some s =>
      match parseYMD s with
      | none => errObj (strptimeValueErrorMsg s)
      | some st =>
        match end_date with
        | some es =>
          if es = "" then activitiesCall o st st
          else (match parseYMD es with
                | some en => activitiesCall o st en
                | none => errObj (strptimeValueErrorMsg es))
        | none => activitiesCall o st st

/-- Lines 129-147: `get_activity_details`. -/
def get_activity_details (o : Oracle) (activity_id : Option String) : JVal :=
  match get_client o with
  | ClientOrError.errorDict kvs => JVal.obj [("error", errField kvs)]
  | ClientOrError.client =>
    match o.getActivityDetails activity_id with
    | CallResult.ok v =>
        JVal.obj [("activityId", match activity_id with
                                 | some s => JVal.str s
                                 | none => JVal.null),
                  ("details", v)]
    | CallResult.exc e => errObj (excStr e)

/-- Lines 354-374: `test_connection`. -/
def test_connection (o : Oracle) : JVal :=
  match get_client o with
  | ClientOrError.errorDict kvs =>
      JVal.obj [("success", JVal.bool false), ("error", errField kvs)]
  | ClientOrError.client =>
    match o.getUserProfile with
    | CallResult.exc e => JVal.obj [("success", JVal.bool false), ("error", JVal.str (excStr e))]
    | CallResult.ok p =>
      match p with
      | JVal.obj dp =>
          JVal.obj [("success", JVal.bool true),
                    ("message", JVal.str "Successfully authenticated with Garmin"),
                    ("profile", JVal.obj
                      [("id", pyGetD dp "id" (JVal.str "")),
                       ("displayName", pyGetD dp "displayName" (JVal.str "")),
                       ("fullName", pyGetD dp "fullName" (JVal.str ""))])]
      | _ => JVal.obj [("success", JVal.bool false), ("error", JVal.str attrErrorMsg)]

/-- The parsed command-line flags (credentials absorbed into the oracle). -/
structure Args where
  start_date : Option String
  end_date : Option String
  activity_id : Option String
  date : Option String

/-- Flags all absent. -/
def defaultArgs : Args := ⟨none, none, none, none⟩

/-- Lines 388-404: the command dispatch of `main`. -/
def runCommand (o : Oracle) (cmd : String) (a : Args) : JVal :=
  if cmd == "authenticate" then authenticate o
  else if cmd == "profile" then get_profile o
  else if cmd == "activities" then get_activities o a.start_date a.end_date
  else if cmd == "activity_details" then get_activity_details o a.activity_id
  else if cmd == "daily_summary" then get_daily_summary o a.date
  else if cmd == "daily_summaries" then get_daily_summaries o a.start_date a.end_date
  else if cmd == "test" then test_connection o
  else JVal.obj [("error", JVal.str ("Unknown command: " ++ cmd))]

/-- Lines 376-411: `main` — the JSON values printed to standard output
(line 407 prints `json.dumps(result)` once; every other print targets
standard error).  Named `mainOutput` because Lean reserves `main`. -/
def mainOutput (o : Oracle) (cmd : String) (a : Args) : List JVal :=
  [runCommand o cmd a]

/-! Concrete oracles and arguments used in witnesses and counterexamples. -/

/-- An oracle whose login raises the rate-limit exception. -/
def rlOracle : Oracle :=
  ⟨some GarminExc.tooManyRequests, fun _ => CallResult.exc GarminExc.tooManyRequests,
   CallResult.exc GarminExc.tooManyRequests, fun _ _ => CallResult.exc GarminExc.tooManyRequests,
   fun _ => CallResult.exc GarminExc.tooManyRequests⟩

/-- An oracle that logs in but whose stats fetch raises the rate-limit exception. -/
def rl2Oracle : Oracle :=
  ⟨none, fun _ => CallResult.exc GarminExc.tooManyRequests,
   CallResult.exc GarminExc.tooManyRequests, fun _ _ => CallResult.exc GarminExc.tooManyRequests,
   fun _ => CallResult.exc GarminExc.tooManyRequests⟩

/-- An oracle that logs in but whose every method raises a generic exception. -/
def boomOracle : Oracle :=
  ⟨none, fun _ => CallResult.exc (GarminExc.other "boom"),
   CallResult.exc (GarminExc.other "boom"), fun _ _ => CallResult.exc (GarminExc.other "boom"),
   fun _ => CallResult.exc (GarminExc.other "boom")⟩

/-- An oracle that logs in and returns an empty activity list. -/
def okActsOracle : Oracle :=
  ⟨none, fun _ => CallResult.exc (GarminExc.other "x"), CallResult.exc (GarminExc.other "x"),
   fun _ _ => CallResult.ok (JVal.arr []), fun _ => CallResult.exc (GarminExc.other "x")⟩

/-- An oracle that logs in and returns a stats dictionary with 100 steps. -/
def okStatsOracle : Oracle :=
  ⟨none, fun _ => CallResult.ok (JVal.obj [("totalSteps", JVal.int 100)]),
   CallResult.exc GarminExc.tooManyRequests, fun _ _ => CallResult.exc GarminExc.tooManyRequests,
   fun _ => CallResult.exc GarminExc.tooManyRequests⟩

/-- An oracle whose login raises `e` (methods also raise `e`). -/
def failLoginOracle (e : GarminExc) : Oracle :=
  ⟨some e, fun _ => CallResult.exc e, CallResult.exc e, fun _ _ => CallResult.exc e,
   fun _ => CallResult.exc e⟩

/-- An oracle that logs in but whose every method raises `e`. -/
def raisingOracle (e : GarminExc) : Oracle :=
  ⟨none, fun _ => CallResult.exc e, CallResult.exc e, fun _ _ => CallResult.exc e,
   fun _ => CallResult.exc e⟩

/-- Arguments with only a start date. -/
def startArgs : Args := ⟨some "2024-01-01", none, none, none⟩

/-! Helper lemmas about the summary object. -/

/-- The output stores `total_steps` under its own key. -/
theorem jlookup_summary_total_steps (date : String) (f : SummaryFields) :
    jlookup (summaryToJVal date f) "total_steps" = some f.total_steps := rfl

/-- The output stores `total_distance_meters` under its own key. -/
theorem jlookup_summary_total_distance (date : String) (f : SummaryFields) :
    jlookup (summaryToJVal date f) "total_distance_meters" = some f.total_distance_meters := rfl

/-- The output stores `total_calories` under its own key. -/
theorem jlookup_summary_total_calories (date : String) (f : SummaryFields) :
    jlookup (summaryToJVal date f) "total_calories" = some f.total_calories := rfl

/-- The output stores the extracted stress level under `avg_stress_level`. -/
theorem jlookup_summary_avg_stress (date : String) (f : SummaryFields) :
    jlookup (summaryToJVal date f) "avg_stress_level" = some f.avg_stress_level := rfl

/-- The output stores the extracted minimum heart rate under `avg_heart_rate`. -/
theorem jlookup_summary_avg_heart_rate (date : String) (f : SummaryFields) :
    jlookup (summaryToJVal date f) "avg_heart_rate" = some f.min_heart_rate := rfl

/-- The summary object has no `status_code` key. -/
theorem statuscode_summaryPairs (date : String) (f : SummaryFields) :
    pyGetD (summaryPairs date f) "status_code" JVal.null = JVal.null := rfl

/-- The summary object has nineteen fields. -/
theorem objLen_summary (date : String) (f : SummaryFields) :
    jvalObjLen (summaryToJVal date f) = 19 := rfl

/-- An error object has a single field. -/
theorem objLen_errObj (m : String) : jvalObjLen (errObj m) = 1 := rfl

/-- An error object is never the summary object. -/
theorem errObj_ne_summary (m date : String) (g : SummaryFields) :
    errObj m ≠ summaryToJVal date g := by
  intro h
  have h2 := congrArg jvalObjLen h
  rw [objLen_errObj, objLen_summary] at h2
  exact absurd h2 (by decide)

/-- No object with fewer than nineteen fields is the summary object. -/
theorem obj_small_ne_summary (kvs : List (String × JVal)) (date : String) (g : SummaryFields)
    (hlen : kvs.length < 19) : JVal.obj kvs ≠ summaryToJVal date g := by
  intro h
  have h2 := congrArg jvalObjLen h
  rw [objLen_summary] at h2
  simp only [jvalObjLen] at h2
  omega

/-! The fallback-resolution predicate and its transfer lemmas. -/

/-- The field `outKey` of `out` is resolved from `d` by the fallback chain
`k1`, then `k2`, then the default 0. -/
def resolvesBy (out : JVal) (outKey : String) (d : List (String × JVal))
    (k1 k2 : String) : Prop :=
  (∀ v, d.lookup k1 = some v → jlookup out outKey = some v) ∧
  (d.lookup k1 = none → ∀ v, d.lookup k2 = some v → jlookup out outKey = some v) ∧
  (d.lookup k1 = none → d.lookup k2 = none → jlookup out outKey = some (JVal.int 0))

/-- Primary key present: `pyGet2` returns its value. -/
theorem pyGet2_eq_of_k1 (d : List (String × JVal)) (k1 k2 : String) (v : JVal)
    (h : d.lookup k1 = some v) : pyGet2 d k1 k2 = v := by
  simp [pyGet2, pyGetD, h]

/-- Primary key absent, fallback present: `pyGet2` returns the fallback value. -/
theorem pyGet2_eq_of_k2 (d : List (String × JVal)) (k1 k2 : String) (v : JVal)
    (h1 : d.lookup k1 = none) (h2 : d.lookup k2 = some v) : pyGet2 d k1 k2 = v := by
  simp [pyGet2, pyGetD, h1, h2]

/-- Both keys absent: `pyGet2` returns 0. -/
theorem pyGet2_eq_default (d : List (String × JVal)) (k1 k2 : String)
    (h1 : d.lookup k1 = none) (h2 : d.lookup k2 = none) : pyGet2 d k1 k2 = JVal.int 0 := by
  simp [pyGet2, pyGetD, h1, h2]

/-- A field whose stored value is a `pyGet2` chain satisfies `resolvesBy`. -/
theorem resolvesBy_of_lookup (out : JVal) (outKey : String) (d : List (String × JVal))
    (k1 k2 : String) (h : jlookup out outKey = some (pyGet2 d k1 k2)) :
    resolvesBy out outKey d k1 k2 := by
  refine ⟨fun v hv => ?_, fun h1 v hv => ?_, fun h1 h2 => ?_⟩
  · rw [h, pyGet2_eq_of_k1 d k1 k2 v hv]
  · rw [h, pyGet2_eq_of_k2 d k1 k2 v h1 hv]
  · rw [h, pyGet2_eq_default d k1 k2 h1 h2]

/-! Structural lemmas about the extraction pipeline. -/

/-- A successful extraction is the simple resolutions plus some minute values. -/
theorem extractDict_ok (d : List (String × JVal)) (f : SummaryFields)
    (hx : extractDict d = Except.ok f) :
    ∃ mv, minuteFields d = Except.ok mv ∧ f = fieldsOf d mv := by
  unfold extractDict at hx
  cases h : minuteFields d with
  | error e => rw [h] at hx; exact absurd hx (by simp)
  | ok mv =>
    rw [h] at hx
    refine ⟨mv, rfl, ?_⟩
    injection hx with h2
    exact h2.symm

/-- On a truthy, non-429 dictionary whose extraction succeeds past the
all-zero guard, the core returns the summary object. -/
theorem core_success (date : String) (d : List (String × JVal)) (f : SummaryFields)
    (hT : truthy (JVal.obj d) = true)
    (h429 : pyEqInt (pyGetD d "status_code" JVal.null) 429 = false)
    (hx : extractDict d = Except.ok f)
    (hz : allZeroB f = false) :
    get_daily_summary_core date (JVal.obj d) = summaryToJVal date f := by
  simp only [get_daily_summary_core, hT, if_true, h429, Bool.false_eq_true, if_false,
    buildSummary, hx, hz]

/-- A successful `buildSummary` never passes the all-zero guard. -/
theorem buildSummary_success (date ds : String) (r : Except String SummaryFields)
    (g : SummaryFields) (h : buildSummary date r = summaryToJVal ds g) :
    allZeroB g = false := by
  cases r with
  | error m => exact absurd h (errObj_ne_summary m ds g)
  | ok f =>
    rw [show buildSummary date (Except.ok f)
        = if allZeroB f then errObj ("No fitness data available for " ++ date)
          else summaryToJVal date f from rfl] at h
    cases hz : allZeroB f with
    | true =>
      rw [hz] at h
      simp only [eq_self_iff_true, if_true] at h
      exact absurd h (errObj_ne_summary _ ds g)
    | false =>
      rw [hz] at h
      simp only [Bool.false_eq_true, if_false] at h
      have hts := congrArg (fun v => jlookup v "total_steps") h
      have htd := congrArg (fun v => jlookup v "total_distance_meters") h
      have htc := congrArg (fun v => jlookup v "total_calories") h
      simp only [jlookup_summary_total_steps, jlookup_summary_total_distance,
        jlookup_summary_total_calories, Option.some.injEq] at hts htd htc
      unfold allZeroB at hz ⊢
      rw [← hts, ← htd, ← htc]
      exact hz

/-- Whenever the core returns the summary object, the guard fields are not
all zero. -/
theorem core_returns_summary (date ds : String) (stats : JVal) (g : SummaryFields)
    (h : get_daily_summary_core date stats = summaryToJVal ds g) :
    allZeroB g = false := by
  cases stats with
  | null =>
    rw [show get_daily_summary_core date JVal.null
        = errObj ("No fitness data available for " ++ date) from rfl] at h
    exact absurd h (errObj_ne_summary _ ds g)
  | bool b =>
    rw [show get_daily_summary_core date (JVal.bool b)
        = if truthy (JVal.bool b) then errObj unboundLocalMsg
          else errObj ("No fitness data available for " ++ date) from rfl] at h
    split at h <;> exact absurd h (errObj_ne_summary _ ds g)
  | int n =>
    rw [show get_daily_summary_core date (JVal.int n)
        = if truthy (JVal.int n) then errObj unboundLocalMsg
          else errObj ("No fitness data available for " ++ date) from rfl] at h
    split at h <;> exact absurd h (errObj_ne_summary _ ds g)
  | str s =>
    rw [show get_daily_summary_core date (JVal.str s)
        = if truthy (JVal.str s) then errObj unboundLocalMsg
          else errObj ("No fitness data available for " ++ date) from rfl] at h
    split at h <;> exact absurd h (errObj_ne_summary _ ds g)
  | obj d =>
    rw [show get_daily_summary_core date (JVal.obj d)
        = if truthy (JVal.obj d) then
            (if pyEqInt (pyGetD d "status_code" JVal.null) 429 then JVal.obj d
             else buildSummary date (extractDict d))
          else errObj ("No fitness data available for " ++ date) from rfl] at h
    split at h
    · split at h
      case isTrue h429 =>
        injection h with hd
        rw [hd, statuscode_summaryPairs] at h429
        exact absurd h429 (by decide)
      case isFalse h429 => exact buildSummary_success date ds _ g h
    · exact absurd h (errObj_ne_summary _ ds g)
  | arr items =>
    cases items with
    | nil =>
      rw [show get_daily_summary_core date (JVal.arr [])
          = errObj ("No fitness data available for " ++ date) from rfl] at h
      exact absurd h (errObj_ne_summary _ ds g)
    | cons v rest =>
      cases v with
      | obj d =>
        rw [show get_daily_summary_core date (JVal.arr (JVal.obj d :: rest))
            = buildSummary date (extractDict d) from rfl] at h
        exact buildSummary_success date ds _ g h
      | null =>
        rw [show get_daily_summary_core date (JVal.arr (JVal.null :: rest))
            = errObj unboundLocalMsg from rfl] at h
        exact absurd h (errObj_ne_summary _ ds g)
      | bool b =>
        rw [show get_daily_summary_core date (JVal.arr (JVal.bool b :: rest))
            = errObj unboundLocalMsg from rfl] at h
        exact absurd h (errObj_ne_summary _ ds g)
      | int n =>
        rw [show get_daily_summary_core date (JVal.arr (JVal.int n :: rest))
            = errObj unboundLocalMsg from rfl] at h
        exact absurd h (errObj_ne_summary _ ds g)
      | str s =>
        rw [show get_daily_summary_core date (JVal.arr (JVal.str s :: rest))
            = errObj unboundLocalMsg from rfl] at h
        exact absurd h (errObj_ne_summary _ ds g)
      | arr xs =>
        rw [show get_daily_summary_core date (JVal.arr (JVal.arr xs :: rest))
            = errObj unboundLocalMsg from rfl] at h
        exact absurd h (errObj_ne_summary _ ds g)

/-! Per-command equations under a failed or successful login. -/

/-- `authenticate` wraps the login error dict, dropping all but `error`. -/
theorem authenticate_login_exc (o : Oracle) (kvs : List (String × JVal))
    (hc : get_client o = ClientOrError.errorDict kvs) :
    authenticate o = JVal.obj [("success", JVal.bool false), ("error", errField kvs)] := by
  simp only [authenticate, hc]

/-- `authenticate` succeeds when login does. -/
theorem authenticate_client (o : Oracle) (hc : get_client o = ClientOrError.client) :
    authenticate o
      = JVal.obj [("success", JVal.bool true), ("message", JVal.str "Authentication successful")] := by
  simp only [authenticate, hc]

/-- `get_profile` wraps the login error dict, dropping all but `error`. -/
theorem get_profile_login_exc (o : Oracle) (kvs : List (String × JVal))
    (hc : get_client o = ClientOrError.errorDict kvs) :
    get_profile o = JVal.obj [("error", errField kvs)] := by
  simp only [get_profile, hc]

/-- `get_activities` wraps the login error dict, dropping all but `error`. -/
theorem get_activities_login_exc (o : Oracle) (sd ed : Option String)
    (kvs : List (String × JVal)) (hc : get_client o = ClientOrError.errorDict kvs) :
    get_activities o sd ed = JVal.obj [("error", errField kvs)] := by
  simp only [get_activities, hc]

/-- `get_activity_details` wraps the login error dict, dropping all but `error`. -/
theorem get_activity_details_login_exc (o : Oracle) (aid : Option String)
    (kvs : List (String × JVal)) (hc : get_client o = ClientOrError.errorDict kvs) :
    get_activity_details o aid = JVal.obj [("error", errField kvs)] := by
  simp only [get_activity_details, hc]

/-- `get_daily_summary` returns the login error dict unchanged (line 154). -/
theorem get_daily_summary_login_exc (o : Oracle) (dopt : Option String)
    (kvs : List (String × JVal)) (hc : get_client o = ClientOrError.errorDict kvs) :
    get_daily_summary o dopt = JVal.obj kvs := by
  simp only [get_daily_summary, hc]

/-- `get_daily_summaries` wraps the login error dict, dropping all but `error`. -/
theorem get_daily_summaries_login_exc (o : Oracle) (sd ed : Option String)
    (kvs : List (String × JVal)) (hc : get_client o = ClientOrError.errorDict kvs) :
    get_daily_summaries o sd ed = JVal.obj [("error", errField kvs)] := by
  simp only [get_daily_summaries, hc]

/-- `test_connection` wraps the login error dict, dropping all but `error`. -/
theorem test_connection_login_exc (o : Oracle) (kvs : List (String × JVal))
    (hc : get_client o = ClientOrError.errorDict kvs) :
    test_connection o = JVal.obj [("success", JVal.bool false), ("error", errField kvs)] := by
  simp only [test_connection, hc]

/-- With a client and a missing date flag, the summary is the strptime error. -/
theorem get_daily_summary_client_none (o : Oracle)
    (hc : get_client o = ClientOrError.client) :
    get_daily_summary o none = errObj strptimeNoneMsg := by
  simp only [get_daily_summary, hc]

/-- With a client and an unparseable date, the summary is the format error. -/
theorem get_daily_summary_client_baddate (o : Oracle)
    (hc : get_client o = ClientOrError.client) (ds : String) (hp : parseYMD ds = none) :
    get_daily_summary o (some ds)
      = errObj ("Invalid date format: " ++ ds ++ ". Use YYYY-MM-DD.") := by
  simp only [get_daily_summary, hc, hp]

/-- With a client and a valid date, the summary is the core on the fetched stats. -/
theorem get_daily_summary_client (o : Oracle) (hc : get_client o = ClientOrError.client)
    (ds : String) (dt : Date) (hp : parseYMD ds = some dt) :
    get_daily_summary o (some ds)
      = get_daily_summary_core ds (handle_garmin_request (o.getStats ds)) := by
  simp only [get_daily_summary, hc, hp]

/-! Object-shapedness of command results. -/

/-- `buildSummary` always yields a JSON object. -/
theorem isObj_buildSummary (date : String) (r : Except String SummaryFields) :
    isObjB (buildSummary date r) = true := by
  cases r with
  | error m => rfl
  | ok f =>
    rw [show buildSummary date (Except.ok f)
        = if allZeroB f then errObj ("No fitness data available for " ++ date)
          else summaryToJVal date f from rfl]
    split <;> rfl

/-- The daily-summary core always yields a JSON object. -/
theorem isObj_core (date : String) (stats : JVal) :
    isObjB (get_daily_summary_core date stats) = true := by
  cases stats with
  | null => rfl
  | bool b =>
    rw [show get_daily_summary_core date (JVal.bool b)
        = if truthy (JVal.bool b) then errObj unboundLocalMsg
          else errObj ("No fitness data available for " ++ date) from rfl]
    split <;> rfl
  | int n =>
    rw [show get_daily_summary_core date (JVal.int n)
        = if truthy (JVal.int n) then errObj unboundLocalMsg
          else errObj ("No fitness data available for " ++ date) from rfl]
    split <;> rfl
  | str s =>
    rw [show get_daily_summary_core date (JVal.str s)
        = if truthy (JVal.str s) then errObj unboundLocalMsg
          else errObj ("No fitness data available for " ++ date) from rfl]
    split <;> rfl
  | obj d =>
    rw [show get_daily_summary_core date (JVal.obj d)
        = if truthy (JVal.obj d) then
            (if pyEqInt (pyGetD d "status_code" JVal.null) 429 then JVal.obj d
             else buildSummary date (extractDict d))
          else errObj ("No fitness data available for " ++ date) from rfl]
    split
    · split
      · rfl
      · exact isObj_buildSummary date (extractDict d)
    · rfl
  | arr items =>
    cases items with
    | nil => rfl
    | cons v rest =>
      cases v with
      | obj d => exact isObj_buildSummary date (extractDict d)
      | null => rfl
      | bool b => rfl
      | int n => rfl
      | str s => rfl
      | arr xs => rfl

/-- `get_daily_summary` always yields a JSON object. -/
theorem isObj_get_daily_summary (o : Oracle) (dopt : Option String) :
    isObjB (get_daily_summary o dopt) = true := by
  cases hc : get_client o with
  | errorDict kvs => rw [get_daily_summary_login_exc o dopt kvs hc]; rfl
  | client =>
    cases dopt with
    | none => rw [get_daily_summary_client_none o hc]; rfl
    | some ds =>
      cases hp : parseYMD ds with
      | none => rw [get_daily_summary_client_baddate o hc ds hp]; rfl
      | some dt => rw [get_daily_summary_client o hc ds dt hp]; exact isObj_core ds _

/-- `authenticate` always yields a JSON object. -/
theorem isObj_authenticate (o : Oracle) : isObjB (authenticate o) = true := by
  cases hc : get_client o with
  | errorDict kvs => rw [authenticate_login_exc o kvs hc]; rfl
  | client => rw [authenticate_client o hc]; rfl

/-- `get_activity_details` always yields a JSON object. -/
theorem isObj_activity_details (o : Oracle) (aid : Option String) :
    isObjB (get_activity_details o aid) = true := by
  cases hc : get_client o with
  | errorDict kvs => rw [get_activity_details_login_exc o aid kvs hc]; rfl
  | client =>
    cases hr : o.getActivityDetails aid with
    | ok v => simp only [get_activity_details, hc, hr, isObjB]
    | exc e => simp only [get_activity_details, hc, hr, errObj, isObjB]

/-- `test_connection` always yields a JSON object. -/
theorem isObj_test (o : Oracle) : isObjB (test_connection o) = true := by
  cases hc : get_client o with
  | errorDict kvs => simp only [test_connection, hc, isObjB]
  | client =>
    cases hr : o.getUserProfile with
    | exc e => simp only [test_connection, hc, hr, isObjB]
    | ok p => cases p <;> simp only [test_connection, hc, hr, isObjB]

/-! Concrete inputs shared by witnesses and counterexamples. -/

/-- All four minute variables at 0. -/
def zeroMinutes : MinuteVals := ⟨JVal.int 0, JVal.int 0, JVal.int 0, JVal.int 0⟩

/-- A stats dictionary carrying only `totalSteps` 7. -/
def stepsDict : List (String × JVal) := [("totalSteps", JVal.int 7)]

/-- Extraction of `stepsDict`. -/
def stepsFields : SummaryFields := fieldsOf stepsDict zeroMinutes

/-- A stats dictionary carrying only `totalSteps` 100 (no stress keys). -/
def stressDict : List (String × JVal) := [("totalSteps", JVal.int 100)]

/-- Extraction of `stressDict`. -/
def stressFields : SummaryFields := fieldsOf stressDict zeroMinutes

/-- A stats dictionary with a minimum heart rate and some steps. -/
def hrDict : List (String × JVal) := [("minHeartRate", JVal.int 48), ("totalSteps", JVal.int 9)]

/-- Extraction of `hrDict`. -/
def hrFields : SummaryFields := fieldsOf hrDict zeroMinutes

/-- A stats dictionary with only second-granularity activity fields. -/
def splitDict : List (String × JVal) :=
  [("activeSeconds", JVal.int 600), ("highlyActiveSeconds", JVal.int 120)]

/-- A stats dictionary with only `sedentarySeconds`. -/
def sedDict : List (String × JVal) := [("sedentarySeconds", JVal.int 3600)]

/-- Extraction of the empty dictionary: every field 0. -/
def zeroFields : SummaryFields := fieldsOf [] zeroMinutes

/-- The summary produced by `okStatsOracle` for 2024-01-01. -/
def sampleDay : JVal := get_daily_summary okStatsOracle (some "2024-01-01")

/-! Remaining helper lemmas. -/

/-- Every branch of `minuteRest` keeps the sedentary value it was given. -/
theorem minuteRest_sedentary (d : List (String × JVal)) (q : JVal) (mv : MinuteVals)
    (h : minuteRest d q = Except.ok mv) : mv.minutes_sedentary = q := by
  unfold minuteRest at h
  repeat' split at h
  all_goals first
    | exact Except.noConfusion h
    | (injection h with h2; rw [← h2])

/-- With a client and no start date, `get_activities` is the strptime error. -/
theorem get_activities_client_none (o : Oracle) (hc : get_client o = ClientOrError.client)
    (ed : Option String) : get_activities o none ed = errObj strptimeNoneMsg := by
  simp only [get_activities, hc]

/-- With a client and a bad start date, `get_activities` is the format error. -/
theorem get_activities_client_badstart (o : Oracle) (hc : get_client o = ClientOrError.client)
    (s : String) (hp : parseYMD s = none) (ed : Option String) :
    get_activities o (some s) ed = errObj (strptimeValueErrorMsg s) := by
  simp only [get_activities, hc, hp]

/-- With a client and no end date, `get_activities` queries a one-day range. -/
theorem get_activities_client_noend (o : Oracle) (hc : get_client o = ClientOrError.client)
    (s : String) (st : Date) (hp : parseYMD s = some st) :
    get_activities o (some s) none = activitiesCall o st st := by
  simp only [get_activities, hc, hp]

/-- With a client and an empty end date, `get_activities` queries a one-day range. -/
theorem get_activities_client_emptyend (o : Oracle) (hc : get_client o = ClientOrError.client)
    (s : String) (st : Date) (hp : parseYMD s = some st) (es : String) (he : es = "") :
    get_activities o (some s) (some es) = activitiesCall o st st := by
  subst he
  simp only [get_activities, hc, hp, eq_self_iff_true, if_true]

/-- With a client and a bad end date, `get_activities` is the format error. -/
theorem get_activities_client_badend (o : Oracle) (hc : get_client o = ClientOrError.client)
    (s : String) (st : Date) (hp : parseYMD s = some st) (es : String)
    (he : ¬es = "") (hpe : parseYMD es = none) :
    get_activities o (some s) (some es) = errObj (strptimeValueErrorMsg es) := by
  simp only [get_activities, hc, hp, he, if_false, hpe]

/-- With a client and a parseable end date, `get_activities` queries the range. -/
theorem get_activities_client_end (o : Oracle) (hc : get_client o = ClientOrError.client)
    (s : String) (st : Date) (hp : parseYMD s = some st) (es : String)
    (he : ¬es = "") (en : Date) (hpe : parseYMD es = some en) :
    get_activities o (some s) (some es) = activitiesCall o st en := by
  simp only [get_activities, hc, hp, he, if_false, hpe]

/-- When the range query raises, `get_activities` reports the message. -/
theorem activitiesCall_exc (o : Oracle) (st en : Date) (e : GarminExc)
    (hr : o.getActivitiesByDate (formatDate st) (formatDate en) = CallResult.exc e) :
    activitiesCall o st en = errObj (excStr e) := by
  simp only [activitiesCall, hr]

/-- With a client and no start date, `get_daily_summaries` is the strptime error. -/
theorem get_daily_summaries_client_none (o : Oracle)
    (hc : get_client o = ClientOrError.client) (ed : Option String) :
    get_daily_summaries o none ed = errObj strptimeNoneMsg := by
  simp only [get_daily_summaries, hc]

/-- With a client and a bad start date, `get_daily_summaries` is the format error. -/
theorem get_daily_summaries_client_badstart (o : Oracle)
    (hc : get_client o = ClientOrError.client) (s : String) (hp : parseYMD s = none)
    (ed : Option String) :
    get_daily_summaries o (some s) ed = errObj (strptimeValueErrorMsg s) := by
  simp only [get_daily_summaries, hc, hp]

/-- With a client and no end date, the loop runs over the single start day. -/
theorem get_daily_summaries_client_noend (o : Oracle)
    (hc : get_client o = ClientOrError.client) (s : String) (st : Date)
    (hp : parseYMD s = some st) :
    get_daily_summaries o (some s) none
      = JVal.arr (collectSummaries o (toDayNumber st + 1 - toDayNumber st) st st) := by
  simp only [get_daily_summaries, hc, hp]

/-- With a client and an empty end date, the loop runs over the start day. -/
theorem get_daily_summaries_client_emptyend (o : Oracle)
    (hc : get_client o = ClientOrError.client) (s : String) (st : Date)
    (hp : parseYMD s = some st) (es : String) (he : es = "") :
    get_daily_summaries o (some s) (some es)
      = JVal.arr (collectSummaries o (toDayNumber st + 1 - toDayNumber st) st st) := by
  subst he
  simp only [get_daily_summaries, hc, hp, eq_self_iff_true, if_true]

/-- With a client and a bad end date, `get_daily_summaries` is the format error. -/
theorem get_daily_summaries_client_badend (o : Oracle)
    (hc : get_client o = ClientOrError.client) (s : String) (st : Date)
    (hp : parseYMD s = some st) (es : String) (he : ¬es = "") (hpe : parseYMD es = none) :
    get_daily_summaries o (some s) (some es) = errObj (strptimeValueErrorMsg es) := by
  simp only [get_daily_summaries, hc, hp, he, if_false, hpe]

/-- With a client and a parseable end date, the loop runs over the range. -/
theorem get_daily_summaries_client_end (o : Oracle)
    (hc : get_client o = ClientOrError.client) (s : String) (st : Date)
    (hp : parseYMD s = some st) (es : String) (he : ¬es = "") (en : Date)
    (hpe : parseYMD es = some en) :
    get_daily_summaries o (some s) (some es)
      = JVal.arr (collectSummaries o (toDayNumber en + 1 - toDayNumber st) st en) := by
  simp only [get_daily_summaries, hc, hp, he, if_false, hpe]

/-- No element the loop collects carries an `error` key. -/
theorem collect_no_error (o : Oracle) : ∀ (n : Nat) (cur fin : Date) (v : JVal),
    v ∈ collectSummaries o n cur fin → hasKeyB v "error" = false := by
  intro n
  induction n with
  | zero =>
    intro cur fin v hv
    rw [show collectSummaries o 0 cur fin = [] from rfl] at hv
    exact absurd hv (List.not_mem_nil v)
  | succ k ih =>
    intro cur fin v hv
    rw [show collectSummaries o (k + 1) cur fin
        = if dateLe cur fin then
            (if hasKeyB (get_daily_summary o (some (formatDate cur))) "error" then
              collectSummaries o k (nextDate cur) fin
             else get_daily_summary o (some (formatDate cur))
                :: collectSummaries o k (nextDate cur) fin)
          else [] from rfl] at hv
    split at hv
    · split at hv
      · exact ih _ _ _ hv
      case isFalse hk =>
        rcases List.mem_cons.mp hv with hveq | hv2
        · rw [hveq]
          exact Bool.eq_false_iff.mpr hk
        · exact ih _ _ _ hv2
    · exact absurd hv (List.not_mem_nil v)

/-! The claims. -/

/-- C1 counterexample: with a rate-limited login, the `authenticate` command
returns an object whose `error` field is the fixed message but which carries
no `status_code` field at all, so the result does not have `status_code` 429
as the claim requires of every command. -/
theorem c1_counterexample_authenticate_drops_status_code :
    rlOracle.login = some GarminExc.tooManyRequests ∧
    runCommand rlOracle "authenticate" defaultArgs
      = JVal.obj [("success", JVal.bool false), ("error", JVal.str RATE_LIMIT_ERROR)] ∧
    jlookup (runCommand rlOracle "authenticate" defaultArgs) "status_code" = none :=
  ⟨rfl, rfl, rfl⟩

/-- C1 amended: when the client raises the rate-limit exception during login,
every command's result is a JSON object whose `error` field is the fixed
message, but only `daily_summary` also carries `status_code` 429 (it returns
the error dictionary unchanged, also when the rate limit strikes its stats
fetch); the other commands rebuild the object and drop `status_code`. -/
theorem c1_rate_limit_error_message (o o2 : Oracle) (cmd : String) (a : Args)
    (ds : String) (dt : Date)
    (hrl : o.login = some GarminExc.tooManyRequests) :
    (cmd ∈ ["authenticate", "profile", "activities", "activity_details",
            "daily_summary", "daily_summaries", "test"] →
      jlookup (runCommand o cmd a) "error" = some (JVal.str RATE_LIMIT_ERROR)) ∧
    (cmd = "daily_summary" →
      jlookup (runCommand o cmd a) "status_code" = some (JVal.int 429)) ∧
    (o2.login = none → o2.getStats ds = CallResult.exc GarminExc.tooManyRequests →
     parseYMD ds = some dt →
      get_daily_summary o2 (some ds)
        = JVal.obj [("error", JVal.str RATE_LIMIT_ERROR), ("status_code", JVal.int 429)]) := by
  have hc : get_client o = ClientOrError.errorDict
      [("error", JVal.str RATE_LIMIT_ERROR), ("status_code", JVal.int 429)] := by
    simp only [get_client, hrl]
  refine ⟨?_, ?_, ?_⟩
  · intro hmem
    simp only [List.mem_cons, List.not_mem_nil, or_false] at hmem
    rcases hmem with rfl | rfl | rfl | rfl | rfl | rfl | rfl
    · rw [show runCommand o "authenticate" a = authenticate o from rfl,
          authenticate_login_exc o _ hc]
      rfl
    · rw [show runCommand o "profile" a = get_profile o from rfl,
          get_profile_login_exc o _ hc]
      rfl
    · rw [show runCommand o "activities" a
          = get_activities o a.start_date a.end_date from rfl,
          get_activities_login_exc o a.start_date a.end_date _ hc]
      rfl
    · rw [show runCommand o "activity_details" a
          = get_activity_details o a.activity_id from rfl,
          get_activity_details_login_exc o a.activity_id _ hc]
      rfl
    · rw [show runCommand o "daily_summary" a = get_daily_summary o a.date from rfl,
          get_daily_summary_login_exc o a.date _ hc]
      rfl
    · rw [show runCommand o "daily_summaries" a
          = get_daily_summaries o a.start_date a.end_date from rfl,
          get_daily_summaries_login_exc o a.start_date a.end_date _ hc]
      rfl
    · rw [show runCommand o "test" a = test_connection o from rfl,
          test_connection_login_exc o _ hc]
      rfl
  · intro h
    subst h
    rw [show runCommand o "daily_summary" a = get_daily_summary o a.date from rfl,
        get_daily_summary_login_exc o a.date _ hc]
    rfl
  · intro h1 h2 h3
    have hc2 : get_client o2 = ClientOrError.client := by simp only [get_client, h1]
    rw [get_daily_summary_client o2 hc2 ds dt h3, h2]
    rfl

/-- C1 amended witness: concrete runs for `profile` (error message, no 429),
`daily_summary` under a rate-limited login, and `daily_summary` under a
rate-limited stats fetch. -/
theorem c1_rate_limit_error_message_witness :
    rlOracle.login = some GarminExc.tooManyRequests ∧
    jlookup (runCommand rlOracle "profile" defaultArgs) "error"
      = some (JVal.str RATE_LIMIT_ERROR) ∧
    jlookup (runCommand rlOracle "daily_summary" defaultArgs) "status_code"
      = some (JVal.int 429) ∧
    get_daily_summary rl2Oracle (some "2024-01-01")
      = JVal.obj [("error", JVal.str RATE_LIMIT_ERROR), ("status_code", JVal.int 429)] :=
  ⟨rfl,
   (c1_rate_limit_error_message rlOracle rl2Oracle "profile" defaultArgs "2024-01-01"
      ⟨2024, 1, 1⟩ rfl).1 (by decide),
   (c1_rate_limit_error_message rlOracle rl2Oracle "daily_summary" defaultArgs "2024-01-01"
      ⟨2024, 1, 1⟩ rfl).2.1 rfl,
   (c1_rate_limit_error_message rlOracle rl2Oracle "daily_summary" defaultArgs "2024-01-01"
      ⟨2024, 1, 1⟩ rfl).2.2 rfl rfl rfl⟩

/-- C2 counterexample: a dict response with no stress key yields a summary
whose `avg_stress_level` is 0, not -1 as the claim states. -/
theorem c2_counterexample_stress_zero :
    jlookup (get_daily_summary_core "2024-01-01" (JVal.obj stressDict)) "avg_stress_level"
      = some (JVal.int 0) ∧
    jlookup (get_daily_summary_core "2024-01-01" (JVal.obj stressDict)) "avg_stress_level"
      ≠ some (JVal.int (-1)) := by
  refine ⟨rfl, fun h => ?_⟩
  rw [show jlookup (get_daily_summary_core "2024-01-01" (JVal.obj stressDict))
      "avg_stress_level" = some (JVal.int 0) from rfl] at h
  injection h with h1
  injection h1 with h2
  exact absurd h2 (by decide)

/-- C2 amended: when neither `averageStressLevel` nor `avg_stress_level` is
present in the dict response, the output record's `avg_stress_level` is 0
(the source defaults the final fallback to 0, not -1). -/
theorem c2_stress_absent_defaults_zero (date : String) (d : List (String × JVal))
    (f : SummaryFields)
    (h1 : List.lookup "averageStressLevel" d = none)
    (h2 : List.lookup "avg_stress_level" d = none)
    (hT : truthy (JVal.obj d) = true)
    (h429 : pyEqInt (pyGetD d "status_code" JVal.null) 429 = false)
    (hx : extractDict d = Except.ok f)
    (hz : allZeroB f = false) :
    jlookup (get_daily_summary_core date (JVal.obj d)) "avg_stress_level"
      = some (JVal.int 0) := by
  obtain ⟨mv, hmv, hf⟩ := extractDict_ok d f hx
  rw [core_success date d f hT h429 hx hz, jlookup_summary_avg_stress]
  subst hf
  rw [show (fieldsOf d mv).avg_stress_level
      = pyGet2 d "averageStressLevel" "avg_stress_level" from rfl]
  rw [pyGet2_eq_default d _ _ h1 h2]

/-- C2 amended witness: the concrete stress-free dict. -/
theorem c2_stress_absent_defaults_zero_witness :
    List.lookup "averageStressLevel" stressDict = none ∧
    List.lookup "avg_stress_level" stressDict = none ∧
    extractDict stressDict = Except.ok stressFields ∧
    allZeroB stressFields = false ∧
    jlookup (get_daily_summary_core "2024-01-01" (JVal.obj stressDict)) "avg_stress_level"
      = some (JVal.int 0) :=
  ⟨rfl, rfl, rfl, rfl,
   c2_stress_absent_defaults_zero "2024-01-01" stressDict stressFields rfl rfl rfl rfl rfl rfl⟩

/-- C3 counterexample: the `activities` command with an empty upstream
activity list prints one JSON array, not an object, refuting the claim that
every command emits a key-value mapping. -/
theorem c3_counterexample_array_output :
    mainOutput okActsOracle "activities" startArgs = [JVal.arr []] ∧
    isObjB (JVal.arr []) = false :=
  ⟨rfl, rfl⟩

/-- C3 amended: the program emits exactly one JSON value on standard output
for every command; `authenticate`, `activity_details`, `daily_summary`,
`test` and unknown commands always emit an object, while `activities` and
`daily_summaries` emit arrays on success and `profile` relays the upstream
shape. -/
theorem c3_single_value_output (o : Oracle) (cmd : String) (a : Args) :
    mainOutput o cmd a = [runCommand o cmd a] ∧
    (cmd ∈ ["authenticate", "activity_details", "daily_summary", "test"] →
      isObjB (runCommand o cmd a) = true) ∧
    (cmd ∉ ["authenticate", "profile", "activities", "activity_details",
            "daily_summary", "daily_summaries", "test"] →
      isObjB (runCommand o cmd a) = true) := by
  refine ⟨rfl, ?_, ?_⟩
  · intro hmem
    simp only [List.mem_cons, List.not_mem_nil, or_false] at hmem
    rcases hmem with rfl | rfl | rfl | rfl
    · exact isObj_authenticate o
    · exact isObj_activity_details o a.activity_id
    · exact isObj_get_daily_summary o a.date
    · exact isObj_test o
  · intro hnm
    simp only [List.mem_cons, List.not_mem_nil, or_false, not_or] at hnm
    obtain ⟨n1, n2, n3, n4, n5, n6, n7⟩ := hnm
    rw [show runCommand o cmd a
        = (if cmd == "authenticate" then authenticate o
           else if cmd == "profile" then get_profile o
           else if cmd == "activities" then get_activities o a.start_date a.end_date
           else if cmd == "activity_details" then get_activity_details o a.activity_id
           else if cmd == "daily_summary" then get_daily_summary o a.date
           else if cmd == "daily_summaries" then get_daily_summaries o a.start_date a.end_date
           else if cmd == "test" then test_connection o
           else JVal.obj [("error", JVal.str ("Unknown command: " ++ cmd))]) from rfl]
    simp only [beq_iff_eq, n1, n2, n3, n4, n5, n6, n7, if_false]
    rfl

/-- C3 amended witness: one value with an object for `daily_summary`, an
object for an unknown command. -/
theorem c3_single_value_output_witness :
    mainOutput okStatsOracle "daily_summary" startArgs
      = [runCommand okStatsOracle "daily_summary" startArgs] ∧
    isObjB (runCommand okStatsOracle "daily_summary" startArgs) = true ∧
    isObjB (runCommand okStatsOracle "bogus" startArgs) = true :=
  ⟨(c3_single_value_output okStatsOracle "daily_summary" startArgs).1,
   (c3_single_value_output okStatsOracle "daily_summary" startArgs).2.1 (by decide),
   (c3_single_value_output okStatsOracle "bogus" startArgs).2.2 (by decide)⟩

/-- C4: on a dict-shaped stats response that yields a summary, each of the
eight claimed numeric output fields is resolved by the two-key fallback with
default 0, exactly over the key pairs the claim lists. -/
theorem c4_dict_fields_fallback (date : String) (d : List (String × JVal))
    (f : SummaryFields)
    (hT : truthy (JVal.obj d) = true)
    (h429 : pyEqInt (pyGetD d "status_code" JVal.null) 429 = false)
    (hx : extractDict d = Except.ok f)
    (hz : allZeroB f = false) :
    get_daily_summary_core date (JVal.obj d) = summaryToJVal date f ∧
    resolvesBy (summaryToJVal date f) "total_steps" d "totalSteps" "total_steps" ∧
    resolvesBy (summaryToJVal date f) "total_distance_meters" d
      "totalDistanceMeters" "total_distance_meters" ∧
    resolvesBy (summaryToJVal date f) "total_calories" d "totalKilocalories" "total_calories" ∧
    resolvesBy (summaryToJVal date f) "active_calories" d
      "activeKilocalories" "active_calories" ∧
    resolvesBy (summaryToJVal date f) "bmr_calories" d "bmrKilocalories" "bmr_calories" ∧
    resolvesBy (summaryToJVal date f) "floor_climbed" d "floorsAscended" "floor_climbed" ∧
    resolvesBy (summaryToJVal date f) "max_heart_rate" d "maxHeartRate" "max_heart_rate" ∧
    resolvesBy (summaryToJVal date f) "resting_heart_rate" d
      "restingHeartRate" "resting_heart_rate" := by
  obtain ⟨mv, hmv, hf⟩ := extractDict_ok d f hx
  subst hf
  exact ⟨core_success date d _ hT h429 hx hz,
    resolvesBy_of_lookup _ _ d _ _ rfl, resolvesBy_of_lookup _ _ d _ _ rfl,
    resolvesBy_of_lookup _ _ d _ _ rfl, resolvesBy_of_lookup _ _ d _ _ rfl,
    resolvesBy_of_lookup _ _ d _ _ rfl, resolvesBy_of_lookup _ _ d _ _ rfl,
    resolvesBy_of_lookup _ _ d _ _ rfl, resolvesBy_of_lookup _ _ d _ _ rfl⟩

/-- C4 witness: the concrete steps-only dict resolves `total_steps` to 7. -/
theorem c4_dict_fields_fallback_witness :
    truthy (JVal.obj stepsDict) = true ∧
    extractDict stepsDict = Except.ok stepsFields ∧
    allZeroB stepsFields = false ∧
    jlookup (get_daily_summary_core "2024-01-01" (JVal.obj stepsDict)) "total_steps"
      = some (JVal.int 7) := by
  refine ⟨rfl, rfl, rfl, ?_⟩
  have h := c4_dict_fields_fallback "2024-01-01" stepsDict stepsFields rfl rfl rfl rfl
  rw [h.1]
  exact h.2.1.1 (JVal.int 7) rfl

/-- C5: when the three direct intensity-minute resolutions are all 0 and
`activeSeconds` yields a positive minute count, the estimated split sets
`minutes_highly_active` to `highlyActiveSeconds` floor-divided by 60 and the
three buckets sum exactly to `activeSeconds` floor-divided by 60. -/
theorem c5_intensity_split (d : List (String × JVal)) (ms : JVal) (asec hsec : Int)
    (hsed : sedentaryMinutes d = Except.ok ms)
    (hl : pyEqInt (directLightly d) 0 = true)
    (hm : pyEqInt (directModerately d) 0 = true)
    (hh : pyEqInt (directHighly d) 0 = true)
    (hact : pyGetD d "activeSeconds" (JVal.int 0) = JVal.int asec)
    (hpos : 0 < Int.fdiv asec 60)
    (hhs : pyGetD d "highlyActiveSeconds" (JVal.int 0) = JVal.int hsec) :
    minuteFields d = Except.ok
      ⟨ms,
       JVal.int (Int.fdiv asec 60 - Int.fdiv hsec 60 - pyInt04 (Int.fdiv asec 60)),
       JVal.int (pyInt04 (Int.fdiv asec 60)),
       JVal.int (Int.fdiv hsec 60)⟩ ∧
    (Int.fdiv asec 60 - Int.fdiv hsec 60 - pyInt04 (Int.fdiv asec 60))
      + pyInt04 (Int.fdiv asec 60) + Int.fdiv hsec 60 = Int.fdiv asec 60 := by
  constructor
  · simp only [minuteFields, hsed, minuteRest, hl, hm, hh, hact, hhs, Bool.and_self,
      eq_self_iff_true, if_true, pyFloorDiv, hpos]
  · ring

/-- C5 witness: 600 active seconds and 120 highly-active seconds split into
buckets summing to 10 minutes, with the highly-active bucket at 2. -/
theorem c5_intensity_split_witness :
    sedentaryMinutes splitDict = Except.ok (JVal.int 0) ∧
    pyGetD splitDict "activeSeconds" (JVal.int 0) = JVal.int 600 ∧
    0 < Int.fdiv 600 60 ∧
    pyGetD splitDict "highlyActiveSeconds" (JVal.int 0) = JVal.int 120 ∧
    minuteFields splitDict = Except.ok
      ⟨JVal.int 0,
       JVal.int (Int.fdiv 600 60 - Int.fdiv 120 60 - pyInt04 (Int.fdiv 600 60)),
       JVal.int (pyInt04 (Int.fdiv 600 60)),
       JVal.int (Int.fdiv 120 60)⟩ ∧
    (Int.fdiv 600 60 - Int.fdiv 120 60 - pyInt04 (Int.fdiv 600 60))
      + pyInt04 (Int.fdiv 600 60) + Int.fdiv 120 60 = Int.fdiv 600 60 :=
  ⟨rfl, rfl, by decide, rfl,
   (c5_intensity_split splitDict (JVal.int 0) 600 120 rfl rfl rfl rfl rfl (by decide) rfl).1,
   (c5_intensity_split splitDict (JVal.int 0) 600 120 rfl rfl rfl rfl rfl (by decide) rfl).2⟩

/-- C6: when the direct sedentary-minute resolution is 0 and the key
`sedentarySeconds` is present with an integer value, the sedentary minutes
are that value floor-divided by 60, and every successful extraction carries
that value into the output field. -/
theorem c6_sedentary_conversion (d : List (String × JVal)) (ss : Int)
    (h0 : pyEqInt (directSedentary d) 0 = true)
    (hk : hasKeyPairs d "sedentarySeconds" = true)
    (hv : pyGetD d "sedentarySeconds" (JVal.int 0) = JVal.int ss) :
    sedentaryMinutes d = Except.ok (JVal.int (Int.fdiv ss 60)) ∧
    ∀ f : SummaryFields, extractDict d = Except.ok f →
      f.minutes_sedentary = JVal.int (Int.fdiv ss 60) := by
  have hs : sedentaryMinutes d = Except.ok (JVal.int (Int.fdiv ss 60)) := by
    simp only [sedentaryMinutes, h0, hk, hv, Bool.and_self, eq_self_iff_true, if_true,
      pyFloorDiv]
  refine ⟨hs, fun f hf => ?_⟩
  obtain ⟨mv, hmv, hfe⟩ := extractDict_ok d f hf
  subst hfe
  have hrest : minuteRest d (JVal.int (Int.fdiv ss 60)) = Except.ok mv := by
    simp only [minuteFields, hs] at hmv
    exact hmv
  rw [show (fieldsOf d mv).minutes_sedentary = mv.minutes_sedentary from rfl,
      minuteRest_sedentary d _ mv hrest]

/-- C6 witness: 3600 sedentary seconds convert to 60 sedentary minutes. -/
theorem c6_sedentary_conversion_witness :
    pyEqInt (directSedentary sedDict) 0 = true ∧
    hasKeyPairs sedDict "sedentarySeconds" = true ∧
    pyGetD sedDict "sedentarySeconds" (JVal.int 0) = JVal.int 3600 ∧
    sedentaryMinutes sedDict = Except.ok (JVal.int (Int.fdiv 3600 60)) ∧
    (fieldsOf sedDict ⟨JVal.int 60, JVal.int 0, JVal.int 0, JVal.int 0⟩).minutes_sedentary
      = JVal.int (Int.fdiv 3600 60) :=
  ⟨rfl, rfl, rfl,
   (c6_sedentary_conversion sedDict 3600 rfl rfl rfl).1,
   (c6_sedentary_conversion sedDict 3600 rfl rfl rfl).2
     (fieldsOf sedDict ⟨JVal.int 60, JVal.int 0, JVal.int 0, JVal.int 0⟩) rfl⟩

/-- C7 counterexample: with a working login but a stats fetch that raises a
generic exception, `daily_summaries` prints an empty JSON array — a value
with no `error` field — although an exception was raised while executing the
command, refuting the claim for every command and every exception. -/
theorem c7_counterexample_swallowed :
    boomOracle.getStats "2024-01-01" = CallResult.exc (GarminExc.other "boom") ∧
    mainOutput boomOracle "daily_summaries" startArgs = [JVal.arr []] ∧
    hasKeyB (JVal.arr []) "error" = false ∧
    isObjB (JVal.arr []) = false :=
  ⟨rfl, rfl, rfl, rfl⟩

/-- C7 amended: no client exception escapes uncaught.  When login raises,
every command prints an object with an `error` field; when a later client
call raises, every command except `daily_summaries` prints an object with an
`error` field, while `daily_summaries` silently omits the failing days. -/
theorem c7_exceptions_yield_error_object (e : GarminExc) (cmd : String) (a : Args) :
    (cmd ∈ ["authenticate", "profile", "activities", "activity_details",
            "daily_summary", "daily_summaries", "test"] →
      hasKeyB (runCommand (failLoginOracle e) cmd a) "error" = true) ∧
    (cmd ∈ ["profile", "activities", "activity_details", "daily_summary", "test"] →
      hasKeyB (runCommand (raisingOracle e) cmd a) "error" = true) := by
  constructor
  · intro hmem
    obtain ⟨kvs, hc, hkv⟩ : ∃ kvs, get_client (failLoginOracle e) = ClientOrError.errorDict kvs
        ∧ hasKeyPairs kvs "error" = true := by
      cases e with
      | tooManyRequests => exact ⟨_, rfl, rfl⟩
      | connectionError m => exact ⟨_, rfl, rfl⟩
      | authenticationError m => exact ⟨_, rfl, rfl⟩
      | other m => exact ⟨_, rfl, rfl⟩
    simp only [List.mem_cons, List.not_mem_nil, or_false] at hmem
    rcases hmem with rfl | rfl | rfl | rfl | rfl | rfl | rfl
    · rw [show runCommand (failLoginOracle e) "authenticate" a
          = authenticate (failLoginOracle e) from rfl, authenticate_login_exc _ _ hc]
      rfl
    · rw [show runCommand (failLoginOracle e) "profile" a
          = get_profile (failLoginOracle e) from rfl, get_profile_login_exc _ _ hc]
      rfl
    · rw [show runCommand (failLoginOracle e) "activities" a
          = get_activities (failLoginOracle e) a.start_date a.end_date from rfl,
          get_activities_login_exc _ _ _ _ hc]
      rfl
    · rw [show runCommand (failLoginOracle e) "activity_details" a
          = get_activity_details (failLoginOracle e) a.activity_id from rfl,
          get_activity_details_login_exc _ _ _ hc]
      rfl
    · rw [show runCommand (failLoginOracle e) "daily_summary" a
          = get_daily_summary (failLoginOracle e) a.date from rfl,
          get_daily_summary_login_exc _ _ _ hc]
      exact hkv
    · rw [show runCommand (failLoginOracle e) "daily_summaries" a
          = get_daily_summaries (failLoginOracle e) a.start_date a.end_date from rfl,
          get_daily_summaries_login_exc _ _ _ _ hc]
      rfl
    · rw [show runCommand (failLoginOracle e) "test" a
          = test_connection (failLoginOracle e) from rfl, test_connection_login_exc _ _ hc]
      rfl
  · intro hmem
    have hc2 : get_client (raisingOracle e) = ClientOrError.client := rfl
    simp only [List.mem_cons, List.not_mem_nil, or_false] at hmem
    rcases hmem with rfl | rfl | rfl | rfl | rfl
    · rfl
    · show hasKeyB (get_activities (raisingOracle e) a.start_date a.end_date) "error" = true
      cases hsd : a.start_date with
      | none => rw [get_activities_client_none (raisingOracle e) hc2 a.end_date]; rfl
      | some s =>
        cases hp : parseYMD s with
        | none => rw [get_activities_client_badstart (raisingOracle e) hc2 s hp a.end_date]; rfl
        | some st =>
          cases hed : a.end_date with
          | none =>
            rw [get_activities_client_noend (raisingOracle e) hc2 s st hp,
                activitiesCall_exc (raisingOracle e) st st e rfl]
            rfl
          | some es =>
            by_cases he : es = ""
            · rw [get_activities_client_emptyend (raisingOracle e) hc2 s st hp es he,
                  activitiesCall_exc (raisingOracle e) st st e rfl]
              rfl
            · cases hpe : parseYMD es with
              | none =>
                rw [get_activities_client_badend (raisingOracle e) hc2 s st hp es he hpe]
                rfl
              | some en =>
                rw [get_activities_client_end (raisingOracle e) hc2 s st hp es he en hpe,
                    activitiesCall_exc (raisingOracle e) st en e rfl]
                rfl
    · rfl
    · show hasKeyB (get_daily_summary (raisingOracle e) a.date) "error" = true
      cases hd : a.date with
      | none => rw [get_daily_summary_client_none (raisingOracle e) hc2]; rfl
      | some ds =>
        cases hp : parseYMD ds with
        | none => rw [get_daily_summary_client_baddate (raisingOracle e) hc2 ds hp]; rfl
        | some dt =>
          rw [get_daily_summary_client (raisingOracle e) hc2 ds dt hp]
          cases e with
          | tooManyRequests => rfl
          | connectionError m => rfl
          | authenticationError m => rfl
          | other m => rfl
    · rfl

/-- C7 amended witness: a failing login on `authenticate` and a raising
profile fetch on `profile` both print objects with an `error` field. -/
theorem c7_exceptions_yield_error_object_witness :
    hasKeyB (runCommand (failLoginOracle (GarminExc.other "boom")) "authenticate" defaultArgs)
      "error" = true ∧
    hasKeyB (runCommand (raisingOracle (GarminExc.other "boom")) "profile" defaultArgs)
      "error" = true :=
  ⟨(c7_exceptions_yield_error_object (GarminExc.other "boom") "authenticate" defaultArgs).1
     (by decide),
   (c7_exceptions_yield_error_object (GarminExc.other "boom") "profile" defaultArgs).2
     (by decide)⟩

/-- C8: on a dict-shaped stats response that yields a summary, the output's
`avg_heart_rate` field carries the minimum-heart-rate fallback resolution
(`minHeartRate`, else `min_heart_rate`, else 0), and no output key names the
minimum heart rate. -/
theorem c8_avg_heart_rate_is_min (date : String) (d : List (String × JVal))
    (f : SummaryFields)
    (hT : truthy (JVal.obj d) = true)
    (h429 : pyEqInt (pyGetD d "status_code" JVal.null) 429 = false)
    (hx : extractDict d = Except.ok f)
    (hz : allZeroB f = false) :
    get_daily_summary_core date (JVal.obj d) = summaryToJVal date f ∧
    resolvesBy (summaryToJVal date f) "avg_heart_rate" d "minHeartRate" "min_heart_rate" ∧
    hasKeyB (summaryToJVal date f) "min_heart_rate" = false ∧
    hasKeyB (summaryToJVal date f) "minHeartRate" = false := by
  obtain ⟨mv, hmv, hf⟩ := extractDict_ok d f hx
  subst hf
  exact ⟨core_success date d _ hT h429 hx hz, resolvesBy_of_lookup _ _ d _ _ rfl, rfl, rfl⟩

/-- C8 witness: a dict with `minHeartRate` 48 puts 48 into `avg_heart_rate`
and exposes no minimum-heart-rate key. -/
theorem c8_avg_heart_rate_is_min_witness :
    extractDict hrDict = Except.ok hrFields ∧
    jlookup (get_daily_summary_core "2024-01-01" (JVal.obj hrDict)) "avg_heart_rate"
      = some (JVal.int 48) ∧
    hasKeyB (summaryToJVal "2024-01-01" hrFields) "min_heart_rate" = false := by
  refine ⟨rfl, ?_, ?_⟩
  · have h := c8_avg_heart_rate_is_min "2024-01-01" hrDict hrFields rfl rfl rfl rfl
    rw [h.1]
    exact h.2.1.1 (JVal.int 48) rfl
  · exact (c8_avg_heart_rate_is_min "2024-01-01" hrDict hrFields rfl rfl rfl rfl).2.2.1

/-- C9: `get_daily_summary` never returns the summary record with
`total_steps`, `total_distance_meters` and `total_calories` all zero, and
when the extracted fields are all zero the no-data error object is returned
instead. -/
theorem c9_no_success_when_all_zero (o : Oracle) (dopt : Option String) (ds date : String)
    (g f : SummaryFields) (hz : allZeroB f = true) :
    (get_daily_summary o dopt = summaryToJVal ds g → allZeroB g = false) ∧
    buildSummary date (Except.ok f) = errObj ("No fitness data available for " ++ date) := by
  constructor
  · intro h
    cases hl : o.login with
    | none =>
      have hc : get_client o = ClientOrError.client := by simp only [get_client, hl]
      cases dopt with
      | none =>
        rw [get_daily_summary_client_none o hc] at h
        exact absurd h (errObj_ne_summary _ _ _)
      | some s =>
        cases hp : parseYMD s with
        | none =>
          rw [get_daily_summary_client_baddate o hc s hp] at h
          exact absurd h (errObj_ne_summary _ _ _)
        | some dt =>
          rw [get_daily_summary_client o hc s dt hp] at h
          exact core_returns_summary s ds _ g h
    | some e =>
      cases e with
      | tooManyRequests =>
        have hc : get_client o = ClientOrError.errorDict
            [("error", JVal.str RATE_LIMIT_ERROR), ("status_code", JVal.int 429)] := by
          simp only [get_client, hl]
        rw [get_daily_summary_login_exc o dopt _ hc] at h
        exact absurd h (obj_small_ne_summary _ ds g (by simp))
      | connectionError m =>
        have hc : get_client o = ClientOrError.errorDict [("error", JVal.str m)] := by
          simp only [get_client, hl]
        rw [get_daily_summary_login_exc o dopt _ hc] at h
        exact absurd h (obj_small_ne_summary _ ds g (by simp))
      | authenticationError m =>
        have hc : get_client o = ClientOrError.errorDict [("error", JVal.str m)] := by
          simp only [get_client, hl]
        rw [get_daily_summary_login_exc o dopt _ hc] at h
        exact absurd h (obj_small_ne_summary _ ds g (by simp))
      | other m =>
        have hc : get_client o = ClientOrError.errorDict
            [("error", JVal.str ("Unknown error: " ++ m))] := by
          simp only [get_client, hl]
        rw [get_daily_summary_login_exc o dopt _ hc] at h
        exact absurd h (obj_small_ne_summary _ ds g (by simp))
  · simp only [buildSummary, hz, eq_self_iff_true, if_true]

/-- C9 witness: the all-zero extraction is rejected with the no-data error,
and the concrete successful summary has nonzero guard fields. -/
theorem c9_no_success_when_all_zero_witness :
    allZeroB zeroFields = true ∧
    allZeroB stressFields = false ∧
    buildSummary "2024-01-01" (Except.ok zeroFields)
      = errObj ("No fitness data available for " ++ "2024-01-01") :=
  ⟨rfl,
   (c9_no_success_when_all_zero okStatsOracle (some "2024-01-01") "2024-01-01" "2024-01-01"
      stressFields zeroFields rfl).1 rfl,
   (c9_no_success_when_all_zero okStatsOracle (some "2024-01-01") "2024-01-01" "2024-01-01"
      stressFields zeroFields rfl).2⟩

/-- C10: every element of the array a successful `get_daily_summaries`
returns is free of the `error` key, and a day whose per-day lookup carries an
`error` key contributes nothing to the collected list. -/
theorem c10_summaries_error_free (o : Oracle) (sd ed : Option String) (l : List JVal)
    (v : JVal) (n : Nat) (cur fin : Date) :
    (get_daily_summaries o sd ed = JVal.arr l → v ∈ l → hasKeyB v "error" = false) ∧
    (dateLe cur fin = true →
     hasKeyB (get_daily_summary o (some (formatDate cur))) "error" = true →
      collectSummaries o (n + 1) cur fin = collectSummaries o n (nextDate cur) fin) := by
  constructor
  · intro hl hv
    cases hc : get_client o with
    | errorDict kvs =>
      rw [get_daily_summaries_login_exc o sd ed kvs hc] at hl
      exact JVal.noConfusion hl
    | client =>
      cases sd with
      | none =>
        rw [get_daily_summaries_client_none o hc ed] at hl
        exact JVal.noConfusion hl
      | some s =>
        cases hp : parseYMD s with
        | none =>
          rw [get_daily_summaries_client_badstart o hc s hp ed] at hl
          exact JVal.noConfusion hl
        | some st =>
          cases ed with
          | none =>
            rw [get_daily_summaries_client_noend o hc s st hp] at hl
            injection hl with hls
            subst hls
            exact collect_no_error o _ _ _ v hv
          | some es =>
            by_cases he : es = ""
            · rw [get_daily_summaries_client_emptyend o hc s st hp es he] at hl
              injection hl with hls
              subst hls
              exact collect_no_error o _ _ _ v hv
            · cases hpe : parseYMD es with
              | none =>
                rw [get_daily_summaries_client_badend o hc s st hp es he hpe] at hl
                exact JVal.noConfusion hl
              | some en =>
                rw [get_daily_summaries_client_end o hc s st hp es he en hpe] at hl
                injection hl with hls
                subst hls
                exact collect_no_error o _ _ _ v hv
  · intro h1 h2
    rw [show collectSummaries o (n + 1) cur fin
        = if dateLe cur fin then
            (if hasKeyB (get_daily_summary o (some (formatDate cur))) "error" then
              collectSummaries o n (nextDate cur) fin
             else get_daily_summary o (some (formatDate cur))
                :: collectSummaries o n (nextDate cur) fin)
          else [] from rfl, h1, h2]
    simp only [eq_self_iff_true, if_true]

/-- C10 witness: the one-day run with data yields an error-free element, and
the failing day under `boomOracle` contributes nothing. -/
theorem c10_summaries_error_free_witness :
    hasKeyB sampleDay "error" = false ∧
    collectSummaries boomOracle 1 ⟨2024, 1, 1⟩ ⟨2024, 1, 1⟩
      = collectSummaries boomOracle 0 (nextDate ⟨2024, 1, 1⟩) ⟨2024, 1, 1⟩ :=
  ⟨(c10_summaries_error_free okStatsOracle (some "2024-01-01") none [sampleDay] sampleDay 0
      ⟨2024, 1, 1⟩ ⟨2024, 1, 1⟩).1 rfl (List.mem_singleton.mpr rfl),
   (c10_summaries_error_free boomOracle (some "2024-01-01") none [] (JVal.arr []) 0
      ⟨2024, 1, 1⟩ ⟨2024, 1, 1⟩).2 rfl rfl⟩
